import Mathlib

/-!
Shallow embedding of the RM-Tools model-definition files
`RMtools_1D/models_ns/m111.py` and `RMtools_1D/models_ns/m6.py`.

Python dictionaries of real-valued parameters are embedded as association
lists `List (String × ℝ)` read through `List.lookup`; a missing key
(Python `KeyError`) is embedded as `Option.none` at the level of the whole
call.  NumPy arrays are embedded as `List ℝ` / `List ℂ`, with elementwise
broadcasting written out via `List.map` / `List.zipWith`.  NumPy float
division in m6 is embedded over ℝ with an explicit `Option`: the division
by zero occurring in m6 always has numerator `q * sin 0 = 0`, i.e. it is
the IEEE `0/0 = NaN`, which we track as `none` at that array position.
The bilby prior objects are embedded as association lists of declarations
recording kind, bounds and the periodic-boundary flag.
-/

/-- A Python parameter dictionary: keys are parameter names, values reals. -/
abbrev PDict := List (String × ℝ)

/-- Dictionary read `d[k]`; `none` embeds a Python `KeyError`. -/
def getP (d : PDict) (k : String) : Option ℝ :=
  List.lookup k d

/-- Dictionary write `d[k] = v` (lookup-semantics: the new binding shadows
any previous binding of `k`). -/
def insertP (k : String) (v : ℝ) (d : PDict) : PDict :=
  (k, v) :: d

/-- `np.radians`: degrees to radians. -/
noncomputable def radians (x : ℝ) : ℝ := x * (Real.pi / 180)

/-- `np.ones_like`. -/
def onesLike (l : List ℝ) : List ℝ := l.map fun _ => 1

/-- Broadcast multiplication of a scalar with an array. -/
def scalMul (c : ℝ) (l : List ℝ) : List ℝ := l.map fun x => c * x

/-- Kind of a bilby prior declaration appearing in the model files. -/
inductive PriorKind
  | uniform
  | constraint
deriving DecidableEq

/-- One bilby prior declaration: its kind, bounds, and whether it carries
`boundary="periodic"`. -/
structure PriorEntry where
  kind : PriorKind
  minimum : ℝ
  maximum : ℝ
  periodic : Bool

/-- Lookup of a named entry in a prior specification. -/
def lookupPrior (ps : List (String × PriorEntry)) (k : String) : Option PriorEntry :=
  List.lookup k ps

/-- A value satisfies the declared bounds of a prior entry. -/
def inBounds (e : PriorEntry) (v : ℝ) : Prop :=
  e.minimum ≤ v ∧ v ≤ e.maximum

namespace m111

/-- The m111 model of `RMtools_1D/models_ns/m111.py`: three Faraday-thin
sources averaged in the same beam.  Mirrors

```
pArr1 = pDict["fracPol1"] * np.ones_like(lamSqArr_m2)
quArr1 = pArr1 * np.exp(2j * (np.radians(pDict["psi01_deg"]) + pDict["RM1_radm2"] * lamSqArr_m2))
... (components 2 and 3 alike)
quArr = quArr1 + quArr2 + quArr3
```
-/
noncomputable def model (pDict : PDict) (lamSqArr : List ℝ) : Option (List ℂ) := do
  let p1 ← getP pDict "fracPol1"
  let p2 ← getP pDict "fracPol2"
  let p3 ← getP pDict "fracPol3"
  let psi01 ← getP pDict "psi01_deg"
  let rm1 ← getP pDict "RM1_radm2"
  let psi02 ← getP pDict "psi02_deg"
  let rm2 ← getP pDict "RM2_radm2"
  let psi03 ← getP pDict "psi03_deg"
  let rm3 ← getP pDict "RM3_radm2"
  let pArr1 := scalMul p1 (onesLike lamSqArr)
  let pArr2 := scalMul p2 (onesLike lamSqArr)
  let pArr3 := scalMul p3 (onesLike lamSqArr)
  let quArr1 := List.zipWith
    (fun (p : ℝ) (x : ℝ) => (p : ℂ) * Complex.exp (2 * Complex.I * ((radians psi01 + rm1 * x : ℝ) : ℂ)))
    pArr1 lamSqArr
  let quArr2 := List.zipWith
    (fun (p : ℝ) (x : ℝ) => (p : ℂ) * Complex.exp (2 * Complex.I * ((radians psi02 + rm2 * x : ℝ) : ℂ)))
    pArr2 lamSqArr
  let quArr3 := List.zipWith
    (fun (p : ℝ) (x : ℝ) => (p : ℂ) * Complex.exp (2 * Complex.I * ((radians psi03 + rm3 * x : ℝ) : ℂ)))
    pArr3 lamSqArr
  let quArr := List.zipWith (· + ·) (List.zipWith (· + ·) quArr1 quArr2) quArr3
  pure quArr

/-- The m111 converter of `m111.py`: copies the dictionary and adds the
derived constraint keys. -/
def converter (parameters : PDict) : Option PDict := do
  let rm1 ← getP parameters "RM1_radm2"
  let rm2 ← getP parameters "RM2_radm2"
  let rm3 ← getP parameters "RM3_radm2"
  let p1 ← getP parameters "fracPol1"
  let p2 ← getP parameters "fracPol2"
  let p3 ← getP parameters "fracPol3"
  let converted := parameters
  let converted := insertP "delta_RM1_RM2_radm2" (rm1 - rm2) converted
  let converted := insertP "delta_RM2_RM3_radm2" (rm2 - rm3) converted
  let converted := insertP "sum_p1_p2_p3" (p1 + p2 + p3) converted
  pure converted

/-- The m111 prior specification (the `priors[...] = ...` lines of
`m111.py`), in source order. -/
def priors : List (String × PriorEntry) :=
  [ ("fracPol1", ⟨.uniform, 0, 1, false⟩)
  , ("fracPol2", ⟨.uniform, 0, 1, false⟩)
  , ("fracPol3", ⟨.uniform, 0, 1, false⟩)
  , ("psi01_deg", ⟨.uniform, 0, 180, true⟩)
  , ("psi02_deg", ⟨.uniform, 0, 180, true⟩)
  , ("psi03_deg", ⟨.uniform, 0, 180, true⟩)
  , ("RM1_radm2", ⟨.uniform, -1100, 1100, false⟩)
  , ("RM2_radm2", ⟨.uniform, -1100, 1100, false⟩)
  , ("RM3_radm2", ⟨.uniform, -1100, 1100, false⟩)
  , ("delta_RM1_RM2_radm2", ⟨.constraint, 0, 2200, false⟩)
  , ("delta_RM2_RM3_radm2", ⟨.constraint, 0, 2200, false⟩)
  , ("sum_p1_p2_p3", ⟨.constraint, 0, 1, false⟩) ]

/-- The dictionary keys read by `m111.model`, in source order. -/
def modelKeys : List String :=
  [ "fracPol1", "fracPol2", "fracPol3"
  , "psi01_deg", "RM1_radm2", "psi02_deg", "RM2_radm2", "psi03_deg", "RM3_radm2" ]

/-- The derived constraint keys written by `m111.converter`. -/
def derivedKeys : List String :=
  [ "delta_RM1_RM2_radm2", "delta_RM2_RM3_radm2", "sum_p1_p2_p3" ]

end m111

namespace m6

/-- Mean rotation measure of a Burn-slab component: the code's
`0.5*deltaRM + RM`, i.e. the rotation measure at the middle of the slab. -/
noncomputable def meanRM (rm drm : ℝ) : ℝ := rm + 0.5 * drm

/-- NumPy float division of a complex array element by a real scalar,
with the IEEE-undefined case tracked as `none`.  In m6 the denominator is
`deltaRM * λ²` and the numerator carries the factor `sin (deltaRM * λ²)`,
so a zero denominator is always the IEEE `0/0 = NaN`. -/
noncomputable def divNaN (a : ℂ) (b : ℝ) : Option ℂ :=
  if b = 0 then none else some (a / (b : ℂ))

/-- NaN-propagating addition of two array elements. -/
def optAdd (a b : Option ℂ) : Option ℂ := do
  let a' ← a
  let b' ← b
  pure (a' + b')

/-- The m6 model of `RMtools_1D/models_ns/m6.py`: two Burn slabs with
differential Faraday rotation, averaged in the same beam.  Mirrors

```
pArr1 = pDict["fracPol1"] * np.ones_like(lamSqArr_m2)
quArr1 = pArr1 * np.exp(2j * (np.radians(pDict["psi01_deg"]) +
                              (0.5*pDict["deltaRM1_radm2"] + pDict["RM1_radm2"]) * lamSqArr_m2))
... (component 2 alike)
quArr = (quArr1 * np.sin(d1*l) / (d1*l) + quArr2 * np.sin(d2*l) / (d2*l))
```
-/
noncomputable def model (pDict : PDict) (lamSqArr : List ℝ) :
    Option (List (Option ℂ)) := do
  let p1 ← getP pDict "fracPol1"
  let p2 ← getP pDict "fracPol2"
  let psi01 ← getP pDict "psi01_deg"
  let drm1 ← getP pDict "deltaRM1_radm2"
  let rm1 ← getP pDict "RM1_radm2"
  let psi02 ← getP pDict "psi02_deg"
  let drm2 ← getP pDict "deltaRM2_radm2"
  let rm2 ← getP pDict "RM2_radm2"
  let pArr1 := scalMul p1 (onesLike lamSqArr)
  let pArr2 := scalMul p2 (onesLike lamSqArr)
  let quArr1 := List.zipWith
    (fun (p : ℝ) (x : ℝ) => (p : ℂ) *
      Complex.exp (2 * Complex.I * ((radians psi01 + (0.5 * drm1 + rm1) * x : ℝ) : ℂ)))
    pArr1 lamSqArr
  let quArr2 := List.zipWith
    (fun (p : ℝ) (x : ℝ) => (p : ℂ) *
      Complex.exp (2 * Complex.I * ((radians psi02 + (0.5 * drm2 + rm2) * x : ℝ) : ℂ)))
    pArr2 lamSqArr
  let t1 := List.zipWith
    (fun (q : ℂ) (x : ℝ) => divNaN (q * ((Real.sin (drm1 * x) : ℝ) : ℂ)) (drm1 * x)) quArr1 lamSqArr
  let t2 := List.zipWith
    (fun (q : ℂ) (x : ℝ) => divNaN (q * ((Real.sin (drm2 * x) : ℝ) : ℂ)) (drm2 * x)) quArr2 lamSqArr
  let quArr := List.zipWith optAdd t1 t2
  pure quArr

/-- The m6 converter of `m6.py`: copies the dictionary and adds the derived
constraint keys. -/
def converter (parameters : PDict) : Option PDict := do
  let rm1 ← getP parameters "RM1_radm2"
  let rm2 ← getP parameters "RM2_radm2"
  let p1 ← getP parameters "fracPol1"
  let p2 ← getP parameters "fracPol2"
  let converted := parameters
  let converted := insertP "delta_RM1_RM2_radm2" (rm1 - rm2) converted
  let converted := insertP "sum_p1_p2" (p1 + p2) converted
  pure converted

/-- The m6 prior specification (the `priors[...] = ...` lines of `m6.py`),
in source order. -/
def priors : List (String × PriorEntry) :=
  [ ("fracPol1", ⟨.uniform, 0, 1, false⟩)
  , ("fracPol2", ⟨.uniform, 0, 1, false⟩)
  , ("psi01_deg", ⟨.uniform, 0, 180, true⟩)
  , ("psi02_deg", ⟨.uniform, 0, 180, true⟩)
  , ("RM1_radm2", ⟨.uniform, -1100, 1100, false⟩)
  , ("RM2_radm2", ⟨.uniform, -1100, 1100, false⟩)
  , ("deltaRM1_radm2", ⟨.uniform, 0, 100, false⟩)
  , ("deltaRM2_radm2", ⟨.uniform, 0, 100, false⟩)
  , ("delta_RM1_RM2_radm2", ⟨.constraint, 0, 2200, false⟩)
  , ("sum_p1_p2", ⟨.constraint, 0, 1, false⟩) ]

/-- The dictionary keys read by `m6.model`, in source order. -/
def modelKeys : List String :=
  [ "fracPol1", "fracPol2"
  , "psi01_deg", "deltaRM1_radm2", "RM1_radm2"
  , "psi02_deg", "deltaRM2_radm2", "RM2_radm2" ]

/-- The derived constraint keys written by `m6.converter`. -/
def derivedKeys : List String :=
  [ "delta_RM1_RM2_radm2", "sum_p1_p2" ]

end m6

/-! ### Helper lemmas -/

theorem getP_insertP (k k' : String) (v : ℝ) (d : PDict) :
    getP (insertP k v d) k' = if k' = k then some v else getP d k' := by
  unfold getP insertP
  rw [List.lookup]
  by_cases h : k' = k
  · simp [h]
  · have hb : (k' == k) = false := beq_eq_false_iff_ne.mpr h
    simp [hb, h]

theorem getP_insertP_same (k : String) (v : ℝ) (d : PDict) :
    getP (insertP k v d) k = some v := by
  simp [getP_insertP]

theorem getP_insertP_ne (k k' : String) (v : ℝ) (d : PDict) (h : k' ≠ k) :
    getP (insertP k v d) k' = getP d k' := by
  simp [getP_insertP, h]

theorem scalMul_onesLike (c : ℝ) (l : List ℝ) :
    scalMul c (onesLike l) = l.map fun _ => c := by
  simp [scalMul, onesLike, List.map_map, Function.comp]

theorem zipWith_map_left_self {α β γ : Type} (f : β → α → γ) (g : α → β)
    (l : List α) :
    List.zipWith f (l.map g) l = l.map fun x => f (g x) x := by
  induction l with
  | nil => rfl
  | cons a t ih => simp [ih]

theorem zipWith_map_map {α β γ δ : Type} (k : β → γ → δ) (f : α → β)
    (g : α → γ) (l : List α) :
    List.zipWith k (l.map f) (l.map g) = l.map fun x => k (f x) (g x) := by
  induction l with
  | nil => rfl
  | cons a t ih => simp [ih]

theorem radians_zero : radians 0 = 0 := by
  simp [radians]

theorem radians_180 : radians 180 = Real.pi := by
  unfold radians
  field_simp

theorem cexp_pi_add (c : ℝ) :
    Complex.exp (2 * Complex.I * ((Real.pi + c : ℝ) : ℂ)) =
      Complex.exp (2 * Complex.I * ((c : ℝ) : ℂ)) := by
  rw [Complex.ofReal_add, mul_add, Complex.exp_add]
  rw [show (2 : ℂ) * Complex.I * (Real.pi : ℝ) = 2 * (Real.pi : ℝ) * Complex.I by ring]
  rw [Complex.exp_two_pi_mul_I, one_mul]

theorem m111_model_eval (d : PDict) (l : List ℝ) (p1 p2 p3 a1 a2 a3 r1 r2 r3 : ℝ)
    (h1 : getP d "fracPol1" = some p1) (h2 : getP d "fracPol2" = some p2)
    (h3 : getP d "fracPol3" = some p3) (h4 : getP d "psi01_deg" = some a1)
    (h5 : getP d "RM1_radm2" = some r1) (h6 : getP d "psi02_deg" = some a2)
    (h7 : getP d "RM2_radm2" = some r2) (h8 : getP d "psi03_deg" = some a3)
    (h9 : getP d "RM3_radm2" = some r3) :
    m111.model d l = some (l.map fun x =>
      (p1 : ℂ) * Complex.exp (2 * Complex.I * ((radians a1 + r1 * x : ℝ) : ℂ)) +
      (p2 : ℂ) * Complex.exp (2 * Complex.I * ((radians a2 + r2 * x : ℝ) : ℂ)) +
      (p3 : ℂ) * Complex.exp (2 * Complex.I * ((radians a3 + r3 * x : ℝ) : ℂ))) := by
  simp only [m111.model, h1, h2, h3, h4, h5, h6, h7, h8, h9, Option.bind_eq_bind,
    Option.some_bind, scalMul_onesLike, zipWith_map_left_self, zipWith_map_map,
    List.map_map, Function.comp, pure]

theorem m6_model_eval (d : PDict) (l : List ℝ) (p1 p2 a1 a2 d1 d2 r1 r2 : ℝ)
    (h1 : getP d "fracPol1" = some p1) (h2 : getP d "fracPol2" = some p2)
    (h3 : getP d "psi01_deg" = some a1) (h4 : getP d "deltaRM1_radm2" = some d1)
    (h5 : getP d "RM1_radm2" = some r1) (h6 : getP d "psi02_deg" = some a2)
    (h7 : getP d "deltaRM2_radm2" = some d2) (h8 : getP d "RM2_radm2" = some r2) :
    m6.model d l = some (l.map fun x =>
      m6.optAdd
        (m6.divNaN ((p1 : ℂ) *
          Complex.exp (2 * Complex.I * ((radians a1 + (0.5 * d1 + r1) * x : ℝ) : ℂ)) *
          ((Real.sin (d1 * x) : ℝ) : ℂ)) (d1 * x))
        (m6.divNaN ((p2 : ℂ) *
          Complex.exp (2 * Complex.I * ((radians a2 + (0.5 * d2 + r2) * x : ℝ) : ℂ)) *
          ((Real.sin (d2 * x) : ℝ) : ℂ)) (d2 * x))) := by
  simp only [m6.model, h1, h2, h3, h4, h5, h6, h7, h8, Option.bind_eq_bind,
    Option.some_bind, scalMul_onesLike, zipWith_map_left_self, zipWith_map_map,
    List.map_map, Function.comp, pure]

theorem m111_converter_eval (d : PDict) (rm1 rm2 rm3 p1 p2 p3 : ℝ)
    (h1 : getP d "RM1_radm2" = some rm1) (h2 : getP d "RM2_radm2" = some rm2)
    (h3 : getP d "RM3_radm2" = some rm3) (h4 : getP d "fracPol1" = some p1)
    (h5 : getP d "fracPol2" = some p2) (h6 : getP d "fracPol3" = some p3) :
    m111.converter d = some (insertP "sum_p1_p2_p3" (p1 + p2 + p3)
      (insertP "delta_RM2_RM3_radm2" (rm2 - rm3)
        (insertP "delta_RM1_RM2_radm2" (rm1 - rm2) d))) := by
  simp only [m111.converter, h1, h2, h3, h4, h5, h6, Option.bind_eq_bind,
    Option.some_bind, pure]

theorem m6_converter_eval (d : PDict) (rm1 rm2 p1 p2 : ℝ)
    (h1 : getP d "RM1_radm2" = some rm1) (h2 : getP d "RM2_radm2" = some rm2)
    (h3 : getP d "fracPol1" = some p1) (h4 : getP d "fracPol2" = some p2) :
    m6.converter d = some (insertP "sum_p1_p2" (p1 + p2)
      (insertP "delta_RM1_RM2_radm2" (rm1 - rm2) d)) := by
  simp only [m6.converter, h1, h2, h3, h4, Option.bind_eq_bind,
    Option.some_bind, pure]

/-! ### Claim theorems -/

/-- Claim C2: for every parameter mapping containing the nine m111 keys and
every wavelength-squared sequence, the m111 model returns, at each sample
λ², the sum over the three components of `fracPol_k * exp(2i * (psi0k in
radians + RMk * λ²))`, with no depolarization envelope applied. -/
theorem m111_model_pointwise_formula (d : PDict) (l : List ℝ)
    (p1 p2 p3 a1 a2 a3 r1 r2 r3 : ℝ)
    (h1 : getP d "fracPol1" = some p1) (h2 : getP d "fracPol2" = some p2)
    (h3 : getP d "fracPol3" = some p3) (h4 : getP d "psi01_deg" = some a1)
    (h5 : getP d "RM1_radm2" = some r1) (h6 : getP d "psi02_deg" = some a2)
    (h7 : getP d "RM2_radm2" = some r2) (h8 : getP d "psi03_deg" = some a3)
    (h9 : getP d "RM3_radm2" = some r3) :
    m111.model d l = some (l.map fun x =>
      (p1 : ℂ) * Complex.exp (2 * Complex.I * ((radians a1 + r1 * x : ℝ) : ℂ)) +
      (p2 : ℂ) * Complex.exp (2 * Complex.I * ((radians a2 + r2 * x : ℝ) : ℂ)) +
      (p3 : ℂ) * Complex.exp (2 * Complex.I * ((radians a3 + r3 * x : ℝ) : ℂ))) :=
  m111_model_eval d l p1 p2 p3 a1 a2 a3 r1 r2 r3 h1 h2 h3 h4 h5 h6 h7 h8 h9

theorem m111_model_pointwise_formula_witness :
    m111.model
      [("fracPol1", 1), ("fracPol2", 2), ("fracPol3", 3), ("psi01_deg", 10),
       ("RM1_radm2", 4), ("psi02_deg", 20), ("RM2_radm2", 5), ("psi03_deg", 30),
       ("RM3_radm2", 6)] [0, 1] = some ([(0 : ℝ), 1].map fun x =>
      ((1 : ℝ) : ℂ) * Complex.exp (2 * Complex.I * ((radians 10 + 4 * x : ℝ) : ℂ)) +
      ((2 : ℝ) : ℂ) * Complex.exp (2 * Complex.I * ((radians 20 + 5 * x : ℝ) : ℂ)) +
      ((3 : ℝ) : ℂ) * Complex.exp (2 * Complex.I * ((radians 30 + 6 * x : ℝ) : ℂ))) :=
  m111_model_pointwise_formula _ _ 1 2 3 10 20 30 4 5 6
    rfl rfl rfl rfl rfl rfl rfl rfl rfl

/-- Claim C7: with `fracPol2 = fracPol3 = 0`, the m111 model reduces to the
single-component Faraday-thin formula of component 1, whatever the other
component-2 and component-3 parameters are. -/
theorem m111_single_component_reduction (d : PDict) (l : List ℝ)
    (p1 a1 a2 a3 r1 r2 r3 : ℝ)
    (h1 : getP d "fracPol1" = some p1) (h2 : getP d "fracPol2" = some 0)
    (h3 : getP d "fracPol3" = some 0) (h4 : getP d "psi01_deg" = some a1)
    (h5 : getP d "RM1_radm2" = some r1) (h6 : getP d "psi02_deg" = some a2)
    (h7 : getP d "RM2_radm2" = some r2) (h8 : getP d "psi03_deg" = some a3)
    (h9 : getP d "RM3_radm2" = some r3) :
    m111.model d l = some (l.map fun x =>
      (p1 : ℂ) * Complex.exp (2 * Complex.I * ((radians a1 + r1 * x : ℝ) : ℂ))) := by
  rw [m111_model_eval d l p1 0 0 a1 a2 a3 r1 r2 r3 h1 h2 h3 h4 h5 h6 h7 h8 h9]
  simp

theorem m111_single_component_reduction_witness :
    m111.model
      [("fracPol1", 1), ("fracPol2", 0), ("fracPol3", 0), ("psi01_deg", 10),
       ("RM1_radm2", 4), ("psi02_deg", 20), ("RM2_radm2", 5), ("psi03_deg", 30),
       ("RM3_radm2", 6)] [0, 1] = some ([(0 : ℝ), 1].map fun x =>
      ((1 : ℝ) : ℂ) * Complex.exp (2 * Complex.I * ((radians 10 + 4 * x : ℝ) : ℂ))) :=
  m111_single_component_reduction _ _ 1 10 20 30 4 5 6
    rfl rfl rfl rfl rfl rfl rfl rfl rfl

/-- Claim C4: for every parameter mapping containing the required keys of
both models and every wavelength-squared sequence of length N, both model
functions succeed and return a sequence of exactly length N. -/
theorem model_output_length (d : PDict) (l : List ℝ)
    (p1 p2 p3 a1 a2 a3 r1 r2 r3 d1 d2 : ℝ)
    (h1 : getP d "fracPol1" = some p1) (h2 : getP d "fracPol2" = some p2)
    (h3 : getP d "fracPol3" = some p3) (h4 : getP d "psi01_deg" = some a1)
    (h5 : getP d "RM1_radm2" = some r1) (h6 : getP d "psi02_deg" = some a2)
    (h7 : getP d "RM2_radm2" = some r2) (h8 : getP d "psi03_deg" = some a3)
    (h9 : getP d "RM3_radm2" = some r3) (h10 : getP d "deltaRM1_radm2" = some d1)
    (h11 : getP d "deltaRM2_radm2" = some d2) :
    (m111.model d l).map List.length = some l.length ∧
    (m6.model d l).map List.length = some l.length := by
  rw [m111_model_eval d l p1 p2 p3 a1 a2 a3 r1 r2 r3 h1 h2 h3 h4 h5 h6 h7 h8 h9,
      m6_model_eval d l p1 p2 a1 a2 d1 d2 r1 r2 h1 h2 h4 h10 h5 h6 h11 h7]
  constructor <;> simp

theorem model_output_length_witness :
    (m111.model
      [("fracPol1", 1), ("fracPol2", 2), ("fracPol3", 3), ("psi01_deg", 10),
       ("RM1_radm2", 4), ("psi02_deg", 20), ("RM2_radm2", 5), ("psi03_deg", 30),
       ("RM3_radm2", 6), ("deltaRM1_radm2", 7), ("deltaRM2_radm2", 8)]
      [0, 1, 2]).map List.length = some ([(0 : ℝ), 1, 2]).length ∧
    (m6.model
      [("fracPol1", 1), ("fracPol2", 2), ("fracPol3", 3), ("psi01_deg", 10),
       ("RM1_radm2", 4), ("psi02_deg", 20), ("RM2_radm2", 5), ("psi03_deg", 30),
       ("RM3_radm2", 6), ("deltaRM1_radm2", 7), ("deltaRM2_radm2", 8)]
      [0, 1, 2]).map List.length = some ([(0 : ℝ), 1, 2]).length :=
  model_output_length _ _ 1 2 3 10 20 30 4 5 6 7 8
    rfl rfl rfl rfl rfl rfl rfl rfl rfl rfl rfl

/-- Claim C1: for every parameter mapping containing the eight m6 keys and
every wavelength-squared sequence whose samples give nonzero sinc
denominators, the m6 model returns, at each sample λ², the sum over the two
components of `fracPol_k * exp(2i * (psi0k in radians + meanRM_k * λ²))`
multiplied by the sinc envelope `sin(ΔRM_k * λ²) / (ΔRM_k * λ²)`, where the
mean rotation measure is `RM_k + 0.5 * ΔRM_k`. -/
theorem m6_model_pointwise_formula (d : PDict) (l : List ℝ)
    (p1 p2 a1 a2 d1 d2 r1 r2 : ℝ)
    (h1 : getP d "fracPol1" = some p1) (h2 : getP d "fracPol2" = some p2)
    (h3 : getP d "psi01_deg" = some a1) (h4 : getP d "deltaRM1_radm2" = some d1)
    (h5 : getP d "RM1_radm2" = some r1) (h6 : getP d "psi02_deg" = some a2)
    (h7 : getP d "deltaRM2_radm2" = some d2) (h8 : getP d "RM2_radm2" = some r2)
    (hnz : ∀ x ∈ l, d1 * x ≠ 0 ∧ d2 * x ≠ 0) :
    m6.model d l = some (l.map fun x => some (
      (p1 : ℂ) * Complex.exp (2 * Complex.I * ((radians a1 + m6.meanRM r1 d1 * x : ℝ) : ℂ)) *
        ((Real.sin (d1 * x) / (d1 * x) : ℝ) : ℂ) +
      (p2 : ℂ) * Complex.exp (2 * Complex.I * ((radians a2 + m6.meanRM r2 d2 * x : ℝ) : ℂ)) *
        ((Real.sin (d2 * x) / (d2 * x) : ℝ) : ℂ))) := by
  rw [m6_model_eval d l p1 p2 a1 a2 d1 d2 r1 r2 h1 h2 h3 h4 h5 h6 h7 h8]
  congr 1
  refine List.map_congr_left fun x hx => ?_
  obtain ⟨hz1, hz2⟩ := hnz x hx
  have e1 : radians a1 + (0.5 * d1 + r1) * x = radians a1 + m6.meanRM r1 d1 * x := by
    unfold m6.meanRM; ring
  have e2 : radians a2 + (0.5 * d2 + r2) * x = radians a2 + m6.meanRM r2 d2 * x := by
    unfold m6.meanRM; ring
  rw [e1, e2]
  simp only [m6.divNaN, if_neg hz1, if_neg hz2, m6.optAdd, Option.bind_eq_bind,
    Option.some_bind]
  congr 1
  push_cast
  ring

theorem m6_model_pointwise_formula_witness :
    m6.model
      [("fracPol1", 1), ("fracPol2", 2), ("psi01_deg", 10), ("deltaRM1_radm2", 3),
       ("RM1_radm2", 4), ("psi02_deg", 20), ("deltaRM2_radm2", 5), ("RM2_radm2", 6)]
      [1] = some ([(1 : ℝ)].map fun x => some (
      ((1 : ℝ) : ℂ) * Complex.exp (2 * Complex.I * ((radians 10 + m6.meanRM 4 3 * x : ℝ) : ℂ)) *
        ((Real.sin (3 * x) / (3 * x) : ℝ) : ℂ) +
      ((2 : ℝ) : ℂ) * Complex.exp (2 * Complex.I * ((radians 20 + m6.meanRM 6 5 * x : ℝ) : ℂ)) *
        ((Real.sin (5 * x) / (5 * x) : ℝ) : ℂ))) :=
  m6_model_pointwise_formula _ _ 1 2 10 20 3 5 4 6
    rfl rfl rfl rfl rfl rfl rfl rfl
    (by intro x hx; simp only [List.mem_singleton] at hx; subst hx; norm_num)

/-- Claim C3: at a sample where `ΔRM_k * λ² = 0` for some component k, the
sinc term of m6 is a division of zero by zero (the numerator factor
`sin(ΔRM_k * λ²)` is exactly zero there); the model still returns a
spectrum (no exception), with the undefined NaN value at that position. -/
theorem m6_sinc_zero_denominator_nan (d : PDict) (l : List ℝ)
    (p1 p2 a1 a2 d1 d2 r1 r2 : ℝ)
    (h1 : getP d "fracPol1" = some p1) (h2 : getP d "fracPol2" = some p2)
    (h3 : getP d "psi01_deg" = some a1) (h4 : getP d "deltaRM1_radm2" = some d1)
    (h5 : getP d "RM1_radm2" = some r1) (h6 : getP d "psi02_deg" = some a2)
    (h7 : getP d "deltaRM2_radm2" = some d2) (h8 : getP d "RM2_radm2" = some r2)
    (i : ℕ) (x : ℝ) (hx : l[i]? = some x)
    (hz : d1 * x = 0 ∨ d2 * x = 0) :
    ((m6.model d l).bind fun out => out[i]?) = some none ∧
    (d1 * x = 0 → Real.sin (d1 * x) = 0) ∧
    (d2 * x = 0 → Real.sin (d2 * x) = 0) := by
  refine ⟨?_, fun h => by rw [h, Real.sin_zero], fun h => by rw [h, Real.sin_zero]⟩
  rw [m6_model_eval d l p1 p2 a1 a2 d1 d2 r1 r2 h1 h2 h3 h4 h5 h6 h7 h8]
  simp only [Option.some_bind, List.getElem?_map, hx, Option.map_some']
  rcases hz with h | h
  · simp [m6.divNaN, h, m6.optAdd]
  · by_cases h1' : d1 * x = 0 <;> simp [m6.divNaN, h1', h, m6.optAdd]

theorem m6_sinc_zero_denominator_nan_witness :
    ((m6.model
      [("fracPol1", 1), ("fracPol2", 2), ("psi01_deg", 10), ("deltaRM1_radm2", 0),
       ("RM1_radm2", 4), ("psi02_deg", 20), ("deltaRM2_radm2", 5), ("RM2_radm2", 6)]
      [1]).bind fun out => out[0]?) = some none ∧
    ((0 : ℝ) * 1 = 0 → Real.sin ((0 : ℝ) * 1) = 0) ∧
    ((5 : ℝ) * 1 = 0 → Real.sin ((5 : ℝ) * 1) = 0) :=
  m6_sinc_zero_denominator_nan
    [("fracPol1", 1), ("fracPol2", 2), ("psi01_deg", 10), ("deltaRM1_radm2", 0),
     ("RM1_radm2", 4), ("psi02_deg", 20), ("deltaRM2_radm2", 5), ("RM2_radm2", 6)]
    [1] 1 2 10 20 0 5 4 6
    rfl rfl rfl rfl rfl rfl rfl rfl 0 1 rfl (Or.inl (by norm_num))

theorem cexp_shift_180 (c : ℝ) :
    Complex.exp (2 * Complex.I * ((radians 180 + c : ℝ) : ℂ)) =
      Complex.exp (2 * Complex.I * ((radians 0 + c : ℝ) : ℂ)) := by
  rw [radians_180, radians_zero, zero_add, cexp_pi_add]

/-- Claim C8: replacing an intrinsic angle `psi0k_deg = 0` by
`psi0k_deg = 180` (the two boundary values of its periodic Uniform prior)
leaves the model output unchanged, for every angle slot of m111 and of m6,
since `exp(2i * radians 180) = exp(2iπ) = 1`. -/
theorem psi0_periodic_180 :
    (∀ (d : PDict) (l : List ℝ) (p1 p2 p3 a2 a3 r1 r2 r3 : ℝ),
      getP d "fracPol1" = some p1 → getP d "fracPol2" = some p2 →
      getP d "fracPol3" = some p3 → getP d "psi01_deg" = some 0 →
      getP d "RM1_radm2" = some r1 → getP d "psi02_deg" = some a2 →
      getP d "RM2_radm2" = some r2 → getP d "psi03_deg" = some a3 →
      getP d "RM3_radm2" = some r3 →
      m111.model (insertP "psi01_deg" 180 d) l = m111.model d l) ∧
    (∀ (d : PDict) (l : List ℝ) (p1 p2 p3 a1 a3 r1 r2 r3 : ℝ),
      getP d "fracPol1" = some p1 → getP d "fracPol2" = some p2 →
      getP d "fracPol3" = some p3 → getP d "psi01_deg" = some a1 →
      getP d "RM1_radm2" = some r1 → getP d "psi02_deg" = some 0 →
      getP d "RM2_radm2" = some r2 → getP d "psi03_deg" = some a3 →
      getP d "RM3_radm2" = some r3 →
      m111.model (insertP "psi02_deg" 180 d) l = m111.model d l) ∧
    (∀ (d : PDict) (l : List ℝ) (p1 p2 p3 a1 a2 r1 r2 r3 : ℝ),
      getP d "fracPol1" = some p1 → getP d "fracPol2" = some p2 →
      getP d "fracPol3" = some p3 → getP d "psi01_deg" = some a1 →
      getP d "RM1_radm2" = some r1 → getP d "psi02_deg" = some a2 →
      getP d "RM2_radm2" = some r2 → getP d "psi03_deg" = some 0 →
      getP d "RM3_radm2" = some r3 →
      m111.model (insertP "psi03_deg" 180 d) l = m111.model d l) ∧
    (∀ (d : PDict) (l : List ℝ) (p1 p2 a2 d1 d2 r1 r2 : ℝ),
      getP d "fracPol1" = some p1 → getP d "fracPol2" = some p2 →
      getP d "psi01_deg" = some 0 → getP d "deltaRM1_radm2" = some d1 →
      getP d "RM1_radm2" = some r1 → getP d "psi02_deg" = some a2 →
      getP d "deltaRM2_radm2" = some d2 → getP d "RM2_radm2" = some r2 →
      m6.model (insertP "psi01_deg" 180 d) l = m6.model d l) ∧
    (∀ (d : PDict) (l : List ℝ) (p1 p2 a1 d1 d2 r1 r2 : ℝ),
      getP d "fracPol1" = some p1 → getP d "fracPol2" = some p2 →
      getP d "psi01_deg" = some a1 → getP d "deltaRM1_radm2" = some d1 →
      getP d "RM1_radm2" = some r1 → getP d "psi02_deg" = some 0 →
      getP d "deltaRM2_radm2" = some d2 → getP d "RM2_radm2" = some r2 →
      m6.model (insertP "psi02_deg" 180 d) l = m6.model d l) := by
  refine ⟨?_, ?_, ?_, ?_, ?_⟩
  · intro d l p1 p2 p3 a2 a3 r1 r2 r3 h1 h2 h3 h4 h5 h6 h7 h8 h9
    rw [m111_model_eval (insertP "psi01_deg" 180 d) l p1 p2 p3 180 a2 a3 r1 r2 r3
        (by rw [getP_insertP_ne _ _ _ _ (by decide)]; exact h1)
        (by rw [getP_insertP_ne _ _ _ _ (by decide)]; exact h2)
        (by rw [getP_insertP_ne _ _ _ _ (by decide)]; exact h3)
        (getP_insertP_same _ _ _)
        (by rw [getP_insertP_ne _ _ _ _ (by decide)]; exact h5)
        (by rw [getP_insertP_ne _ _ _ _ (by decide)]; exact h6)
        (by rw [getP_insertP_ne _ _ _ _ (by decide)]; exact h7)
        (by rw [getP_insertP_ne _ _ _ _ (by decide)]; exact h8)
        (by rw [getP_insertP_ne _ _ _ _ (by decide)]; exact h9),
      m111_model_eval d l p1 p2 p3 0 a2 a3 r1 r2 r3 h1 h2 h3 h4 h5 h6 h7 h8 h9]
    congr 1
    refine List.map_congr_left fun x hx => ?_
    rw [cexp_shift_180]
  · intro d l p1 p2 p3 a1 a3 r1 r2 r3 h1 h2 h3 h4 h5 h6 h7 h8 h9
    rw [m111_model_eval (insertP "psi02_deg" 180 d) l p1 p2 p3 a1 180 a3 r1 r2 r3
        (by rw [getP_insertP_ne _ _ _ _ (by decide)]; exact h1)
        (by rw [getP_insertP_ne _ _ _ _ (by decide)]; exact h2)
        (by rw [getP_insertP_ne _ _ _ _ (by decide)]; exact h3)
        (by rw [getP_insertP_ne _ _ _ _ (by decide)]; exact h4)
        (by rw [getP_insertP_ne _ _ _ _ (by decide)]; exact h5)
        (getP_insertP_same _ _ _)
        (by rw [getP_insertP_ne _ _ _ _ (by decide)]; exact h7)
        (by rw [getP_insertP_ne _ _ _ _ (by decide)]; exact h8)
        (by rw [getP_insertP_ne _ _ _ _ (by decide)]; exact h9),
      m111_model_eval d l p1 p2 p3 a1 0 a3 r1 r2 r3 h1 h2 h3 h4 h5 h6 h7 h8 h9]
    congr 1
    refine List.map_congr_left fun x hx => ?_
    rw [cexp_shift_180]
  · intro d l p1 p2 p3 a1 a2 r1 r2 r3 h1 h2 h3 h4 h5 h6 h7 h8 h9
    rw [m111_model_eval (insertP "psi03_deg" 180 d) l p1 p2 p3 a1 a2 180 r1 r2 r3
        (by rw [getP_insertP_ne _ _ _ _ (by decide)]; exact h1)
        (by rw [getP_insertP_ne _ _ _ _ (by decide)]; exact h2)
        (by rw [getP_insertP_ne _ _ _ _ (by decide)]; exact h3)
        (by rw [getP_insertP_ne _ _ _ _ (by decide)]; exact h4)
        (by rw [getP_insertP_ne _ _ _ _ (by decide)]; exact h5)
        (by rw [getP_insertP_ne _ _ _ _ (by decide)]; exact h6)
        (by rw [getP_insertP_ne _ _ _ _ (by decide)]; exact h7)
        (getP_insertP_same _ _ _)
        (by rw [getP_insertP_ne _ _ _ _ (by decide)]; exact h9),
      m111_model_eval d l p1 p2 p3 a1 a2 0 r1 r2 r3 h1 h2 h3 h4 h5 h6 h7 h8 h9]
    congr 1
    refine List.map_congr_left fun x hx => ?_
    rw [cexp_shift_180]
  · intro d l p1 p2 a2 d1 d2 r1 r2 h1 h2 h3 h4 h5 h6 h7 h8
    rw [m6_model_eval (insertP "psi01_deg" 180 d) l p1 p2 180 a2 d1 d2 r1 r2
        (by rw [getP_insertP_ne _ _ _ _ (by decide)]; exact h1)
        (by rw [getP_insertP_ne _ _ _ _ (by decide)]; exact h2)
        (getP_insertP_same _ _ _)
        (by rw [getP_insertP_ne _ _ _ _ (by decide)]; exact h4)
        (by rw [getP_insertP_ne _ _ _ _ (by decide)]; exact h5)
        (by rw [getP_insertP_ne _ _ _ _ (by decide)]; exact h6)
        (by rw [getP_insertP_ne _ _ _ _ (by decide)]; exact h7)
        (by rw [getP_insertP_ne _ _ _ _ (by decide)]; exact h8),
      m6_model_eval d l p1 p2 0 a2 d1 d2 r1 r2 h1 h2 h3 h4 h5 h6 h7 h8]
    congr 1
    refine List.map_congr_left fun x hx => ?_
    rw [cexp_shift_180]
  · intro d l p1 p2 a1 d1 d2 r1 r2 h1 h2 h3 h4 h5 h6 h7 h8
    rw [m6_model_eval (insertP "psi02_deg" 180 d) l p1 p2 a1 180 d1 d2 r1 r2
        (by rw [getP_insertP_ne _ _ _ _ (by decide)]; exact h1)
        (by rw [getP_insertP_ne _ _ _ _ (by decide)]; exact h2)
        (by rw [getP_insertP_ne _ _ _ _ (by decide)]; exact h3)
        (by rw [getP_insertP_ne _ _ _ _ (by decide)]; exact h4)
        (by rw [getP_insertP_ne _ _ _ _ (by decide)]; exact h5)
        (getP_insertP_same _ _ _)
        (by rw [getP_insertP_ne _ _ _ _ (by decide)]; exact h7)
        (by rw [getP_insertP_ne _ _ _ _ (by decide)]; exact h8),
      m6_model_eval d l p1 p2 a1 0 d1 d2 r1 r2 h1 h2 h3 h4 h5 h6 h7 h8]
    congr 1
    refine List.map_congr_left fun x hx => ?_
    rw [cexp_shift_180]

theorem psi0_periodic_180_witness :
    m111.model (insertP "psi01_deg" 180
      [("fracPol1", 1), ("fracPol2", 2), ("fracPol3", 3), ("psi01_deg", 0),
       ("RM1_radm2", 4), ("psi02_deg", 20), ("RM2_radm2", 5), ("psi03_deg", 30),
       ("RM3_radm2", 6)]) [0, 1] =
    m111.model
      [("fracPol1", 1), ("fracPol2", 2), ("fracPol3", 3), ("psi01_deg", 0),
       ("RM1_radm2", 4), ("psi02_deg", 20), ("RM2_radm2", 5), ("psi03_deg", 30),
       ("RM3_radm2", 6)] [0, 1] :=
  psi0_periodic_180.1
    [("fracPol1", 1), ("fracPol2", 2), ("fracPol3", 3), ("psi01_deg", 0),
     ("RM1_radm2", 4), ("psi02_deg", 20), ("RM2_radm2", 5), ("psi03_deg", 30),
     ("RM3_radm2", 6)] [0, 1] 1 2 3 20 30 4 5 6
    rfl rfl rfl rfl rfl rfl rfl rfl rfl

/-- Claim C5: the m111 prior declares the Constraint `sum_p1_p2_p3` with
bounds [0,1] and the ordering Constraints with bounds [0,2200]; the
converter sets `sum_p1_p2_p3` to `fracPol1 + fracPol2 + fracPol3`, so a
draw with that sum equal to 1.5 falls outside the declared bounds. -/
theorem m111_sum_constraint_bounds :
    lookupPrior m111.priors "sum_p1_p2_p3" = some ⟨PriorKind.constraint, 0, 1, false⟩ ∧
    lookupPrior m111.priors "delta_RM1_RM2_radm2" =
      some ⟨PriorKind.constraint, 0, 2200, false⟩ ∧
    lookupPrior m111.priors "delta_RM2_RM3_radm2" =
      some ⟨PriorKind.constraint, 0, 2200, false⟩ ∧
    ∀ (d : PDict) (rm1 rm2 rm3 p1 p2 p3 : ℝ),
      getP d "RM1_radm2" = some rm1 → getP d "RM2_radm2" = some rm2 →
      getP d "RM3_radm2" = some rm3 → getP d "fracPol1" = some p1 →
      getP d "fracPol2" = some p2 → getP d "fracPol3" = some p3 →
      ((m111.converter d).bind fun e => getP e "sum_p1_p2_p3") = some (p1 + p2 + p3) ∧
      (p1 + p2 + p3 = 1.5 →
        ¬ inBounds ⟨PriorKind.constraint, 0, 1, false⟩ (p1 + p2 + p3)) := by
  refine ⟨rfl, rfl, rfl, ?_⟩
  intro d rm1 rm2 rm3 p1 p2 p3 h1 h2 h3 h4 h5 h6
  rw [m111_converter_eval d rm1 rm2 rm3 p1 p2 p3 h1 h2 h3 h4 h5 h6]
  constructor
  · simp only [Option.some_bind, getP_insertP_same]
  · intro hs
    rw [hs]
    simp only [inBounds, not_and, not_le]
    intro _
    norm_num

theorem m111_sum_constraint_bounds_witness :
    ((m111.converter
      [("RM1_radm2", 1), ("RM2_radm2", 2), ("RM3_radm2", 3), ("fracPol1", 0.5),
       ("fracPol2", 0.5), ("fracPol3", 0.5)]).bind fun e => getP e "sum_p1_p2_p3") =
      some ((0.5 : ℝ) + 0.5 + 0.5) ∧
    ((0.5 : ℝ) + 0.5 + 0.5 = 1.5 →
      ¬ inBounds ⟨PriorKind.constraint, 0, 1, false⟩ ((0.5 : ℝ) + 0.5 + 0.5)) :=
  m111_sum_constraint_bounds.2.2.2
    [("RM1_radm2", 1), ("RM2_radm2", 2), ("RM3_radm2", 3), ("fracPol1", 0.5),
     ("fracPol2", 0.5), ("fracPol3", 0.5)] 1 2 3 0.5 0.5 0.5
    rfl rfl rfl rfl rfl rfl

/-- Claim C6: each model's conversion function is deterministic (equal
inputs give equal outputs) and idempotent on its added keys: running the
converter on its own output reproduces the same value at every derived
constraint key. -/
theorem converter_deterministic_idempotent :
    (∀ d₁ d₂ : PDict, d₁ = d₂ →
      m111.converter d₁ = m111.converter d₂ ∧ m6.converter d₁ = m6.converter d₂) ∧
    (∀ d e : PDict, m111.converter d = some e →
      ∀ k ∈ m111.derivedKeys,
        ((m111.converter e).bind fun x => getP x k) = getP e k) ∧
    (∀ d e : PDict, m6.converter d = some e →
      ∀ k ∈ m6.derivedKeys,
        ((m6.converter e).bind fun x => getP x k) = getP e k) := by
  refine ⟨fun d₁ d₂ h => by rw [h]; exact ⟨rfl, rfl⟩, ?_, ?_⟩
  · intro d e h k hk
    simp only [m111.converter, Option.bind_eq_bind, Option.bind_eq_some, pure,
      Option.some.injEq] at h
    obtain ⟨rm1, hrm1, rm2, hrm2, rm3, hrm3, p1, hp1, p2, hp2, p3, hp3, he⟩ := h
    subst he
    have g1 : getP (insertP "sum_p1_p2_p3" (p1 + p2 + p3)
        (insertP "delta_RM2_RM3_radm2" (rm2 - rm3)
          (insertP "delta_RM1_RM2_radm2" (rm1 - rm2) d))) "RM1_radm2" = some rm1 := by
      rw [getP_insertP_ne _ _ _ _ (by decide), getP_insertP_ne _ _ _ _ (by decide),
        getP_insertP_ne _ _ _ _ (by decide)]
      exact hrm1
    have g2 : getP (insertP "sum_p1_p2_p3" (p1 + p2 + p3)
        (insertP "delta_RM2_RM3_radm2" (rm2 - rm3)
          (insertP "delta_RM1_RM2_radm2" (rm1 - rm2) d))) "RM2_radm2" = some rm2 := by
      rw [getP_insertP_ne _ _ _ _ (by decide), getP_insertP_ne _ _ _ _ (by decide),
        getP_insertP_ne _ _ _ _ (by decide)]
      exact hrm2
    have g3 : getP (insertP "sum_p1_p2_p3" (p1 + p2 + p3)
        (insertP "delta_RM2_RM3_radm2" (rm2 - rm3)
          (insertP "delta_RM1_RM2_radm2" (rm1 - rm2) d))) "RM3_radm2" = some rm3 := by
      rw [getP_insertP_ne _ _ _ _ (by decide), getP_insertP_ne _ _ _ _ (by decide),
        getP_insertP_ne _ _ _ _ (by decide)]
      exact hrm3
    have g4 : getP (insertP "sum_p1_p2_p3" (p1 + p2 + p3)
        (insertP "delta_RM2_RM3_radm2" (rm2 - rm3)
          (insertP "delta_RM1_RM2_radm2" (rm1 - rm2) d))) "fracPol1" = some p1 := by
      rw [getP_insertP_ne _ _ _ _ (by decide), getP_insertP_ne _ _ _ _ (by decide),
        getP_insertP_ne _ _ _ _ (by decide)]
      exact hp1
    have g5 : getP (insertP "sum_p1_p2_p3" (p1 + p2 + p3)
        (insertP "delta_RM2_RM3_radm2" (rm2 - rm3)
          (insertP "delta_RM1_RM2_radm2" (rm1 - rm2) d))) "fracPol2" = some p2 := by
      rw [getP_insertP_ne _ _ _ _ (by decide), getP_insertP_ne _ _ _ _ (by decide),
        getP_insertP_ne _ _ _ _ (by decide)]
      exact hp2
    have g6 : getP (insertP "sum_p1_p2_p3" (p1 + p2 + p3)
        (insertP "delta_RM2_RM3_radm2" (rm2 - rm3)
          (insertP "delta_RM1_RM2_radm2" (rm1 - rm2) d))) "fracPol3" = some p3 := by
      rw [getP_insertP_ne _ _ _ _ (by decide), getP_insertP_ne _ _ _ _ (by decide),
        getP_insertP_ne _ _ _ _ (by decide)]
      exact hp3
    rw [m111_converter_eval _ rm1 rm2 rm3 p1 p2 p3 g1 g2 g3 g4 g5 g6]
    simp only [Option.some_bind]
    simp only [m111.derivedKeys, List.mem_cons, List.not_mem_nil, or_false] at hk
    rcases hk with rfl | rfl | rfl
    · rw [getP_insertP_ne _ _ _ _ (by decide), getP_insertP_ne _ _ _ _ (by decide),
        getP_insertP_same, getP_insertP_ne _ _ _ _ (by decide),
        getP_insertP_ne _ _ _ _ (by decide), getP_insertP_same]
    · rw [getP_insertP_ne _ _ _ _ (by decide), getP_insertP_same,
        getP_insertP_ne _ _ _ _ (by decide), getP_insertP_same]
    · rw [getP_insertP_same, getP_insertP_same]
  · intro d e h k hk
    simp only [m6.converter, Option.bind_eq_bind, Option.bind_eq_some, pure,
      Option.some.injEq] at h
    obtain ⟨rm1, hrm1, rm2, hrm2, p1, hp1, p2, hp2, he⟩ := h
    subst he
    have g1 : getP (insertP "sum_p1_p2" (p1 + p2)
        (insertP "delta_RM1_RM2_radm2" (rm1 - rm2) d)) "RM1_radm2" = some rm1 := by
      rw [getP_insertP_ne _ _ _ _ (by decide), getP_insertP_ne _ _ _ _ (by decide)]
      exact hrm1
    have g2 : getP (insertP "sum_p1_p2" (p1 + p2)
        (insertP "delta_RM1_RM2_radm2" (rm1 - rm2) d)) "RM2_radm2" = some rm2 := by
      rw [getP_insertP_ne _ _ _ _ (by decide), getP_insertP_ne _ _ _ _ (by decide)]
      exact hrm2
    have g3 : getP (insertP "sum_p1_p2" (p1 + p2)
        (insertP "delta_RM1_RM2_radm2" (rm1 - rm2) d)) "fracPol1" = some p1 := by
      rw [getP_insertP_ne _ _ _ _ (by decide), getP_insertP_ne _ _ _ _ (by decide)]
      exact hp1
    have g4 : getP (insertP "sum_p1_p2" (p1 + p2)
        (insertP "delta_RM1_RM2_radm2" (rm1 - rm2) d)) "fracPol2" = some p2 := by
      rw [getP_insertP_ne _ _ _ _ (by decide), getP_insertP_ne _ _ _ _ (by decide)]
      exact hp2
    rw [m6_converter_eval _ rm1 rm2 p1 p2 g1 g2 g3 g4]
    simp only [Option.some_bind]
    simp only [m6.derivedKeys, List.mem_cons, List.not_mem_nil, or_false] at hk
    rcases hk with rfl | rfl
    · rw [getP_insertP_ne _ _ _ _ (by decide), getP_insertP_same,
        getP_insertP_ne _ _ _ _ (by decide), getP_insertP_same]
    · rw [getP_insertP_same, getP_insertP_same]

theorem converter_deterministic_idempotent_witness :
    ((m111.converter (insertP "sum_p1_p2_p3" (1 + 1 + 1)
        (insertP "delta_RM2_RM3_radm2" (1 - 1)
          (insertP "delta_RM1_RM2_radm2" (1 - 1)
            [("RM1_radm2", 1), ("RM2_radm2", 1), ("RM3_radm2", 1), ("fracPol1", 1),
             ("fracPol2", 1), ("fracPol3", 1)])))).bind fun x => getP x "sum_p1_p2_p3") =
      getP (insertP "sum_p1_p2_p3" (1 + 1 + 1)
        (insertP "delta_RM2_RM3_radm2" (1 - 1)
          (insertP "delta_RM1_RM2_radm2" (1 - 1)
            [("RM1_radm2", 1), ("RM2_radm2", 1), ("RM3_radm2", 1), ("fracPol1", 1),
             ("fracPol2", 1), ("fracPol3", 1)]))) "sum_p1_p2_p3" :=
  converter_deterministic_idempotent.2.1
    [("RM1_radm2", 1), ("RM2_radm2", 1), ("RM3_radm2", 1), ("fracPol1", 1),
     ("fracPol2", 1), ("fracPol3", 1)]
    (insertP "sum_p1_p2_p3" (1 + 1 + 1)
      (insertP "delta_RM2_RM3_radm2" (1 - 1)
        (insertP "delta_RM1_RM2_radm2" (1 - 1)
          [("RM1_radm2", 1), ("RM2_radm2", 1), ("RM3_radm2", 1), ("fracPol1", 1),
           ("fracPol2", 1), ("fracPol3", 1)])))
    rfl "sum_p1_p2_p3" (by simp [m111.derivedKeys])

/-- Claim C9: every dictionary key read by a model function has an entry in
that model's prior specification; the model output depends only on those
keys; every Constraint-kind prior name is one of the converter's derived
keys; and the converter computes each derived key deterministically from
the sampled parameters. -/
theorem priors_cover_model_keys :
    (∀ k ∈ m111.modelKeys, (lookupPrior m111.priors k).isSome = true) ∧
    (∀ k ∈ m6.modelKeys, (lookupPrior m6.priors k).isSome = true) ∧
    (∀ d d' : PDict, (∀ k ∈ m111.modelKeys, getP d k = getP d' k) →
      ∀ l : List ℝ, m111.model d l = m111.model d' l) ∧
    (∀ d d' : PDict, (∀ k ∈ m6.modelKeys, getP d k = getP d' k) →
      ∀ l : List ℝ, m6.model d l = m6.model d' l) ∧
    (∀ p ∈ m111.priors, p.2.kind = PriorKind.constraint → p.1 ∈ m111.derivedKeys) ∧
    (∀ p ∈ m6.priors, p.2.kind = PriorKind.constraint → p.1 ∈ m6.derivedKeys) ∧
    (∀ (d : PDict) (rm1 rm2 rm3 p1 p2 p3 : ℝ),
      getP d "RM1_radm2" = some rm1 → getP d "RM2_radm2" = some rm2 →
      getP d "RM3_radm2" = some rm3 → getP d "fracPol1" = some p1 →
      getP d "fracPol2" = some p2 → getP d "fracPol3" = some p3 →
      ((m111.converter d).bind fun e => getP e "delta_RM1_RM2_radm2") = some (rm1 - rm2) ∧
      ((m111.converter d).bind fun e => getP e "delta_RM2_RM3_radm2") = some (rm2 - rm3) ∧
      ((m111.converter d).bind fun e => getP e "sum_p1_p2_p3") = some (p1 + p2 + p3)) ∧
    (∀ (d : PDict) (rm1 rm2 p1 p2 : ℝ),
      getP d "RM1_radm2" = some rm1 → getP d "RM2_radm2" = some rm2 →
      getP d "fracPol1" = some p1 → getP d "fracPol2" = some p2 →
      ((m6.converter d).bind fun e => getP e "delta_RM1_RM2_radm2") = some (rm1 - rm2) ∧
      ((m6.converter d).bind fun e => getP e "sum_p1_p2") = some (p1 + p2)) := by
  refine ⟨by decide, by decide, ?_, ?_, by decide, by decide, ?_, ?_⟩
  · intro d d' hk l
    have e1 := hk "fracPol1" (by simp [m111.modelKeys])
    have e2 := hk "fracPol2" (by simp [m111.modelKeys])
    have e3 := hk "fracPol3" (by simp [m111.modelKeys])
    have e4 := hk "psi01_deg" (by simp [m111.modelKeys])
    have e5 := hk "RM1_radm2" (by simp [m111.modelKeys])
    have e6 := hk "psi02_deg" (by simp [m111.modelKeys])
    have e7 := hk "RM2_radm2" (by simp [m111.modelKeys])
    have e8 := hk "psi03_deg" (by simp [m111.modelKeys])
    have e9 := hk "RM3_radm2" (by simp [m111.modelKeys])
    simp only [m111.model]
    rw [e1, e2, e3, e4, e5, e6, e7, e8, e9]
  · intro d d' hk l
    have e1 := hk "fracPol1" (by simp [m6.modelKeys])
    have e2 := hk "fracPol2" (by simp [m6.modelKeys])
    have e3 := hk "psi01_deg" (by simp [m6.modelKeys])
    have e4 := hk "deltaRM1_radm2" (by simp [m6.modelKeys])
    have e5 := hk "RM1_radm2" (by simp [m6.modelKeys])
    have e6 := hk "psi02_deg" (by simp [m6.modelKeys])
    have e7 := hk "deltaRM2_radm2" (by simp [m6.modelKeys])
    have e8 := hk "RM2_radm2" (by simp [m6.modelKeys])
    simp only [m6.model]
    rw [e1, e2, e3, e4, e5, e6, e7, e8]
  · intro d rm1 rm2 rm3 p1 p2 p3 h1 h2 h3 h4 h5 h6
    rw [m111_converter_eval d rm1 rm2 rm3 p1 p2 p3 h1 h2 h3 h4 h5 h6]
    refine ⟨?_, ?_, ?_⟩ <;>
      simp only [Option.some_bind] <;>
      rw [getP_insertP]
    · rw [if_neg (by decide), getP_insertP_ne _ _ _ _ (by decide), getP_insertP_same]
    · rw [if_neg (by decide), getP_insertP_same]
    · rw [if_pos rfl]
  · intro d rm1 rm2 p1 p2 h1 h2 h3 h4
    rw [m6_converter_eval d rm1 rm2 p1 p2 h1 h2 h3 h4]
    refine ⟨?_, ?_⟩ <;> simp only [Option.some_bind]
    · rw [getP_insertP_ne _ _ _ _ (by decide), getP_insertP_same]
    · rw [getP_insertP_same]

theorem priors_cover_model_keys_witness :
    ((m111.converter
      [("RM1_radm2", 3), ("RM2_radm2", 2), ("RM3_radm2", 1), ("fracPol1", 1),
       ("fracPol2", 1), ("fracPol3", 1)]).bind
        fun e => getP e "delta_RM1_RM2_radm2") = some ((3 : ℝ) - 2) ∧
    ((m111.converter
      [("RM1_radm2", 3), ("RM2_radm2", 2), ("RM3_radm2", 1), ("fracPol1", 1),
       ("fracPol2", 1), ("fracPol3", 1)]).bind
        fun e => getP e "delta_RM2_RM3_radm2") = some ((2 : ℝ) - 1) ∧
    ((m111.converter
      [("RM1_radm2", 3), ("RM2_radm2", 2), ("RM3_radm2", 1), ("fracPol1", 1),
       ("fracPol2", 1), ("fracPol3", 1)]).bind
        fun e => getP e "sum_p1_p2_p3") = some ((1 : ℝ) + 1 + 1) :=
  priors_cover_model_keys.2.2.2.2.2.2.1
    [("RM1_radm2", 3), ("RM2_radm2", 2), ("RM3_radm2", 1), ("fracPol1", 1),
     ("fracPol2", 1), ("fracPol3", 1)] 3 2 1 1 1 1 rfl rfl rfl rfl rfl rfl

/-- Claim C10 counterexample: the converters overwrite a derived constraint
key that is already present in the input, so not every input key-value pair
survives unchanged.  Here the input binds `delta_RM1_RM2_radm2` to 5 but
the m6 converter rebinds it to `RM1_radm2 - RM2_radm2 = 1 - 1 = 0`. -/
theorem m6_converter_overwrites_existing_key :
    ((m6.converter
      [("delta_RM1_RM2_radm2", 5), ("RM1_radm2", 1), ("RM2_radm2", 1),
       ("fracPol1", 0), ("fracPol2", 0)]).bind
        fun e => getP e "delta_RM1_RM2_radm2") ≠
      getP
        [("delta_RM1_RM2_radm2", 5), ("RM1_radm2", 1), ("RM2_radm2", 1),
         ("fracPol1", 0), ("fracPol2", 0)] "delta_RM1_RM2_radm2" := by
  have h1 : ((m6.converter
      [("delta_RM1_RM2_radm2", 5), ("RM1_radm2", 1), ("RM2_radm2", 1),
       ("fracPol1", 0), ("fracPol2", 0)]).bind
        fun e => getP e "delta_RM1_RM2_radm2") = some ((1 : ℝ) - 1) := rfl
  have h2 : getP
      [("delta_RM1_RM2_radm2", 5), ("RM1_radm2", 1), ("RM2_radm2", 1),
       ("fracPol1", 0), ("fracPol2", 0)] "delta_RM1_RM2_radm2" = some (5 : ℝ) := rfl
  rw [h1, h2]
  intro h
  have := Option.some.inj h
  norm_num at this

/-- Claim C10 (amended): the conversion functions are pure (the argument
dictionary is not mutated) and every input key-value pair whose key is not
one of the derived constraint keys appears unchanged in the returned
extended mapping; the derived constraint keys themselves are set to the
computed values, overwriting any pre-existing binding. -/
theorem converter_preserves_nonderived_keys :
    (∀ d e : PDict, m111.converter d = some e →
      ∀ k : String, k ∉ m111.derivedKeys → getP e k = getP d k) ∧
    (∀ d e : PDict, m6.converter d = some e →
      ∀ k : String, k ∉ m6.derivedKeys → getP e k = getP d k) := by
  constructor
  · intro d e h k hk
    simp only [m111.converter, Option.bind_eq_bind, Option.bind_eq_some, pure,
      Option.some.injEq] at h
    obtain ⟨rm1, hrm1, rm2, hrm2, rm3, hrm3, p1, hp1, p2, hp2, p3, hp3, he⟩ := h
    subst he
    simp only [m111.derivedKeys, List.mem_cons, List.not_mem_nil, or_false,
      not_or] at hk
    obtain ⟨n1, n2, n3⟩ := hk
    rw [getP_insertP_ne _ _ _ _ n3, getP_insertP_ne _ _ _ _ n2,
      getP_insertP_ne _ _ _ _ n1]
  · intro d e h k hk
    simp only [m6.converter, Option.bind_eq_bind, Option.bind_eq_some, pure,
      Option.some.injEq] at h
    obtain ⟨rm1, hrm1, rm2, hrm2, p1, hp1, p2, hp2, he⟩ := h
    subst he
    simp only [m6.derivedKeys, List.mem_cons, List.not_mem_nil, or_false,
      not_or] at hk
    obtain ⟨n1, n2⟩ := hk
    rw [getP_insertP_ne _ _ _ _ n2, getP_insertP_ne _ _ _ _ n1]

theorem converter_preserves_nonderived_keys_witness :
    getP (insertP "sum_p1_p2" (1 + 1)
      (insertP "delta_RM1_RM2_radm2" (1 - 1)
        [("RM1_radm2", 1), ("RM2_radm2", 1), ("fracPol1", 1), ("fracPol2", 1)]))
      "RM1_radm2" =
    getP [("RM1_radm2", 1), ("RM2_radm2", 1), ("fracPol1", 1), ("fracPol2", 1)]
      "RM1_radm2" :=
  converter_preserves_nonderived_keys.2
    [("RM1_radm2", 1), ("RM2_radm2", 1), ("fracPol1", 1), ("fracPol2", 1)]
    (insertP "sum_p1_p2" (1 + 1)
      (insertP "delta_RM1_RM2_radm2" (1 - 1)
        [("RM1_radm2", 1), ("RM2_radm2", 1), ("fracPol1", 1), ("fracPol2", 1)]))
    rfl "RM1_radm2" (by simp [m6.derivedKeys])
